import Mathlib

/-!
Verification of the procedural spiral-galaxy particle-field generator
(`src/18-galaxy-generator/src/script.js`).

Modelling conventions:
* JavaScript numbers are modelled as exact rationals (`ℚ`); the transcendental
  host functions `Math.cos`, `Math.sin`, `Math.pow` and the constant `Math.PI`
  are kept abstract in a `MathEnv` record, since no claim depends on their
  values.
* `Math.random()` is modelled as a stream `rand : ℕ → ℚ` of draws, consumed in
  the source's order: per particle `i` the 7 draws `rand (7*i) … rand (7*i+6)`
  (radius, then the pow-draw and the sign-draw for each of x, y, z).
* The `Float32Array` buffers are modelled as `List ℚ`, filled slot by slot in
  loop order.
-/

/-- An RGB colour triple, as the three components of a `THREE.Color`. -/
structure Color where
  r : ℚ
  g : ℚ
  b : ℚ
deriving DecidableEq, Repr

/-- `THREE.Color.prototype.lerp(color, alpha)`: componentwise
`this.c += (color.c - this.c) * alpha`. -/
def Color.lerp (self target : Color) (alpha : ℚ) : Color :=
  { r := self.r + (target.r - self.r) * alpha
    g := self.g + (target.g - self.g) * alpha
    b := self.b + (target.b - self.b) * alpha }

/-- The `parameters` object of the script (galaxy parameters). The two colour
fields hold the parsed RGB value of the hex strings. -/
structure GalaxyParameters where
  count : ℕ
  size : ℚ
  radius : ℚ
  branches : ℕ
  spin : ℚ
  randomness : ℚ
  randomnessPower : ℚ
  insideColor : Color
  outsideColor : Color
deriving DecidableEq, Repr

/-- The host math functions the generator calls. They are abstract: every
theorem below holds for an arbitrary interpretation of `cos`, `sin`, `pow`
and `pi`. -/
structure MathEnv where
  cos : ℚ → ℚ
  sin : ℚ → ℚ
  pow : ℚ → ℚ → ℚ
  pi : ℚ

/-- `const radius = Math.random() * parameters.radius;` — the radius draw of
particle `i` (draw `7*i` of the stream). -/
def particleRadius (p : GalaxyParameters) (rand : ℕ → ℚ) (i : ℕ) : ℚ :=
  rand (7 * i) * p.radius

/-- `const spinAngle = radius * parameters.spin;`. -/
def spinAngle (p : GalaxyParameters) (rand : ℕ → ℚ) (i : ℕ) : ℚ :=
  particleRadius p rand i * p.spin

/-- `const branchAngle = ((i % parameters.branches) / parameters.branches) * Math.PI * 2;`. -/
def branchAngle (M : MathEnv) (p : GalaxyParameters) (i : ℕ) : ℚ :=
  ((i % p.branches : ℕ) : ℚ) / (p.branches : ℚ) * M.pi * 2

/-- `(Math.random() < 0.5 ? 1 : -1)` applied to a draw `v`. -/
def randomSign (v : ℚ) : ℚ :=
  if v < 1 / 2 then 1 else -1

/-- One scatter offset,
`Math.pow(Math.random(), parameters.randomnessPower) * (Math.random() < 0.5 ? 1 : -1) * parameters.randomness * radius`,
with `u` the pow-draw and `v` the sign-draw. -/
def scatterOffset (M : MathEnv) (p : GalaxyParameters) (radius u v : ℚ) : ℚ :=
  M.pow u p.randomnessPower * randomSign v * p.randomness * radius

/-- The position written for particle `i`:
`positions[i3]     = Math.cos(branchAngle + spinAngle) * radius + randomX;`
`positions[i3 + 1] = randomY;`
`positions[i3 + 2] = Math.sin(branchAngle + spinAngle) * radius + randomZ;`. -/
def particlePosition (M : MathEnv) (p : GalaxyParameters) (rand : ℕ → ℚ) (i : ℕ) :
    ℚ × ℚ × ℚ :=
  let radius := particleRadius p rand i
  let randomX := scatterOffset M p radius (rand (7 * i + 1)) (rand (7 * i + 2))
  let randomY := scatterOffset M p radius (rand (7 * i + 3)) (rand (7 * i + 4))
  let randomZ := scatterOffset M p radius (rand (7 * i + 5)) (rand (7 * i + 6))
  (M.cos (branchAngle M p i + spinAngle p rand i) * radius + randomX,
   randomY,
   M.sin (branchAngle M p i + spinAngle p rand i) * radius + randomZ)

/-- The colour written for particle `i`:
`const mixedColor = colorInside.clone(); mixedColor.lerp(colorOutside, radius / parameters.radius);`. -/
def particleColor (p : GalaxyParameters) (rand : ℕ → ℚ) (i : ℕ) : Color :=
  p.insideColor.lerp p.outsideColor (particleRadius p rand i / p.radius)

/-- The `positions` buffer after the first `n` iterations of the generation
loop: each iteration appends its particle's `(x, y, z)` at the 3-wide slot. -/
def positionsUpTo (M : MathEnv) (p : GalaxyParameters) (rand : ℕ → ℚ) : ℕ → List ℚ
  | 0 => []
  | n + 1 =>
    positionsUpTo M p rand n ++
      [(particlePosition M p rand n).1,
       (particlePosition M p rand n).2.1,
       (particlePosition M p rand n).2.2]

/-- The `colors` buffer after the first `n` iterations of the generation loop:
each iteration appends its particle's `(r, g, b)` at the 3-wide slot. -/
def colorsUpTo (p : GalaxyParameters) (rand : ℕ → ℚ) : ℕ → List ℚ
  | 0 => []
  | n + 1 =>
    colorsUpTo p rand n ++
      [(particleColor p rand n).r,
       (particleColor p rand n).g,
       (particleColor p rand n).b]

/-- The buffer pair produced by one run of the generation part of
`generateGalaxy` (the `positions` and `colors` arrays after the full loop of
`parameters.count` iterations). -/
def generateGalaxyBuffers (M : MathEnv) (p : GalaxyParameters) (rand : ℕ → ℚ) :
    List ℚ × List ℚ :=
  (positionsUpTo M p rand p.count, colorsUpTo p rand p.count)

/-- Modelled from the spec: a colour is legal when every component lies in
`[0,1]` (the §3 table). The source has no validation code; this predicate
exists to state the validity hypotheses and the validation claims. -/
def Color.valid (c : Color) : Prop :=
  0 ≤ c.r ∧ c.r ≤ 1 ∧ 0 ≤ c.g ∧ c.g ≤ 1 ∧ 0 ≤ c.b ∧ c.b ≤ 1

instance (c : Color) : Decidable c.valid := by
  unfold Color.valid; infer_instance

/-- Modelled from the spec: the §3 legal-range table for
`ParticleFieldParameters`. The source has no validation code; this predicate
exists to state the validity hypotheses and the validation claims. -/
def validParams (p : GalaxyParameters) : Prop :=
  1 ≤ p.count ∧ p.count ≤ 1000000 ∧ 0 < p.size ∧ 0 < p.radius ∧
    1 ≤ p.branches ∧ 0 ≤ p.randomness ∧ 1 ≤ p.randomnessPower ∧
    p.insideColor.valid ∧ p.outsideColor.valid

instance (p : GalaxyParameters) : Decidable (validParams p) := by
  unfold validParams; infer_instance

/-- The drawable produced by one `generateGalaxy` run: the `THREE.Points`
object together with the buffer pair its geometry holds. -/
structure Drawable where
  positions : List ℚ
  colors : List ℚ
deriving DecidableEq, Repr

/-- The process-wide lifecycle state: the scene's list of attached galaxy
drawables (`scene.add` / `scene.remove`) and the module-level `points`
variable (`null` when no galaxy has been generated yet). -/
structure ControllerState where
  scene : List Drawable
  points : Option Drawable
deriving DecidableEq, Repr

/-- The state before the first `generateGalaxy()` call: empty scene,
`points = null`. -/
def initState : ControllerState :=
  { scene := [], points := none }

/-- The cleanup block at the top of `generateGalaxy`:
`if (points !== null) { geometry.dispose(); material.dispose(); scene.remove(points); }`.
The module variable `points` itself is not reassigned by this block. -/
def cleanupPrevious (s : ControllerState) : ControllerState :=
  match s.points with
  | some old => { scene := s.scene.erase old, points := s.points }
  | none => s

/-- The drawable a successful `generateGalaxy` run attaches: fresh geometry
holding the freshly generated buffer pair. -/
def newDrawable (M : MathEnv) (p : GalaxyParameters) (rand : ℕ → ℚ) : Drawable :=
  { positions := (generateGalaxyBuffers M p rand).1
    colors := (generateGalaxyBuffers M p rand).2 }

/-- One `generateGalaxy()` call. The source first runs the cleanup block,
then allocates the buffers and generates; `allocOk` models the outcome of the
`new Float32Array(parameters.count * 3)` allocations. On success the new
points object is added to the scene and stored in `points`; on an allocation
failure the exception propagates, leaving the state as the cleanup block left
it (old drawable already disposed and removed, `points` still holding the
stale reference). -/
def regenerate (M : MathEnv) (p : GalaxyParameters) (rand : ℕ → ℚ)
    (allocOk : Bool) (s : ControllerState) : ControllerState :=
  let s1 := cleanupPrevious s
  if allocOk then
    { scene := s1.scene ++ [newDrawable M p rand], points := some (newDrawable M p rand) }
  else
    s1

/-- The lifecycle invariant: either idle (no galaxy generated yet) or exactly
one active drawable, attached and stored in `points`. -/
def goodState (s : ControllerState) : Prop :=
  (s.points = none ∧ s.scene = []) ∨ (∃ d, s.points = some d ∧ s.scene = [d])

/-- Concrete math environment used by witnesses; the claims hold for every
environment, so any one will do. -/
def mathEnv0 : MathEnv :=
  { cos := fun _ => 1, sin := fun _ => 0, pow := fun u _ => u, pi := 3 }

/-- Concrete random stream used by witnesses: every draw is `0` (a legal
`Math.random()` value, since the draws lie in `[0, 1)`). -/
def rand0 : ℕ → ℚ :=
  fun _ => 0

/-- A concrete valid parameter set (the §8 example shape, with integral
scalar values). -/
def pGood : GalaxyParameters :=
  { count := 4, size := 1, radius := 1, branches := 2, spin := 0,
    randomness := 0, randomnessPower := 3,
    insideColor := { r := 1, g := 0, b := 0 },
    outsideColor := { r := 0, g := 0, b := 1 } }

/-- A concrete invalid parameter set: `randomness = -1` violates the §3 range
`randomness ≥ 0` (all other fields are legal). -/
def pBad : GalaxyParameters :=
  { count := 7, size := 1, radius := 5, branches := 3, spin := 1,
    randomness := -1, randomnessPower := 3,
    insideColor := { r := 1, g := 0, b := 0 },
    outsideColor := { r := 0, g := 0, b := 1 } }

theorem positionsUpTo_length (M : MathEnv) (p : GalaxyParameters)
    (rand : ℕ → ℚ) (n : ℕ) : (positionsUpTo M p rand n).length = 3 * n := by
  induction n with
  | zero => rfl
  | succ n ih => simp [positionsUpTo, ih]; omega

theorem colorsUpTo_length (p : GalaxyParameters) (rand : ℕ → ℚ) (n : ℕ) :
    (colorsUpTo p rand n).length = 3 * n := by
  induction n with
  | zero => rfl
  | succ n ih => simp [colorsUpTo, ih]; omega

theorem lerp_between (a b t : ℚ) (h0 : 0 ≤ t) (h1 : t ≤ 1) :
    min a b ≤ a + (b - a) * t ∧ a + (b - a) * t ≤ max a b := by
  rcases le_total a b with hab | hab
  · rw [min_eq_left hab, max_eq_right hab]
    constructor <;> nlinarith
  · rw [min_eq_right hab, max_eq_left hab]
    constructor <;> nlinarith

/-- A valid parameter set with `count = 0` is impossible; this variant of the
valid example drops `count` to 0 for the boundary claim. -/
def pZero : GalaxyParameters :=
  { pGood with count := 0 }

/-- A valid parameter set with a single branch, for the `branches = 1` claim. -/
def pOneBranch : GalaxyParameters :=
  { pGood with branches := 1 }

/-- C3: for every valid parameter set, `generate(params)` returns a positions
array of length exactly `3 * params.count` and a colors array of length
exactly `3 * params.count`. -/
theorem generate_buffer_lengths (M : MathEnv) (p : GalaxyParameters)
    (rand : ℕ → ℚ) (_hv : validParams p) :
    (generateGalaxyBuffers M p rand).1.length = 3 * p.count ∧
      (generateGalaxyBuffers M p rand).2.length = 3 * p.count :=
  ⟨positionsUpTo_length M p rand p.count, colorsUpTo_length p rand p.count⟩

/-- Witness for the buffer-length theorem at the concrete valid parameter set
`pGood`. -/
theorem generate_buffer_lengths_witness :
    validParams pGood ∧
      (generateGalaxyBuffers mathEnv0 pGood rand0).1.length = 3 * pGood.count ∧
      (generateGalaxyBuffers mathEnv0 pGood rand0).2.length = 3 * pGood.count :=
  ⟨by decide, generate_buffer_lengths mathEnv0 pGood rand0 (by decide)⟩

/-- C10: for `count = 0` the generation loop runs zero iterations and the
generator returns an empty positions array and an empty colors array, without
any error. -/
theorem count_zero_empty_buffers (M : MathEnv) (p : GalaxyParameters)
    (rand : ℕ → ℚ) (h : p.count = 0) :
    generateGalaxyBuffers M p rand = ([], []) := by
  simp [generateGalaxyBuffers, h, positionsUpTo, colorsUpTo]

/-- Witness for the `count = 0` theorem at the concrete parameter set
`pZero`. -/
theorem count_zero_empty_buffers_witness :
    pZero.count = 0 ∧ generateGalaxyBuffers mathEnv0 pZero rand0 = ([], []) :=
  ⟨rfl, count_zero_empty_buffers mathEnv0 pZero rand0 rfl⟩

/-- C5: `branchAngle` equals `(i mod branches) / branches * 2π`; it is a
deterministic function of the index residue `i mod branches` (no random draw
is consumed); and for `branches = 1` it is `0` for every particle. -/
theorem branchAngle_residue (M : MathEnv) (p : GalaxyParameters) (i : ℕ) :
    branchAngle M p i = ((i % p.branches : ℕ) : ℚ) / (p.branches : ℚ) * (2 * M.pi) ∧
      branchAngle M p i = branchAngle M p (i % p.branches) ∧
      (p.branches = 1 → branchAngle M p i = 0) := by
  refine ⟨by unfold branchAngle; ring, ?_, ?_⟩
  · unfold branchAngle
    rw [Nat.mod_mod_of_dvd i (dvd_refl p.branches)]
  · intro h
    simp [branchAngle, h, Nat.mod_one]

/-- Witness for the branch-angle theorem: with a single branch, particle 5
gets branch angle 0. -/
theorem branchAngle_residue_witness :
    branchAngle mathEnv0 pOneBranch 5 = 0 :=
  (branchAngle_residue mathEnv0 pOneBranch 5).2.2 rfl

/-- C4: for a valid parameter set with `randomness = 0`, every particle's
position lies exactly on the ideal spiral —
`x = cos(branchAngle + spinAngle) * radius_i`, `y = 0`,
`z = sin(branchAngle + spinAngle) * radius_i` — whatever values the random
stream supplies for the scatter draws. -/
theorem randomness_zero_ideal_spiral (M : MathEnv) (p : GalaxyParameters)
    (rand : ℕ → ℚ) (i : ℕ) (_hv : validParams p) (h0 : p.randomness = 0) :
    particlePosition M p rand i =
      (M.cos (branchAngle M p i + spinAngle p rand i) * particleRadius p rand i,
       0,
       M.sin (branchAngle M p i + spinAngle p rand i) * particleRadius p rand i) := by
  simp [particlePosition, scatterOffset, h0]

/-- Witness for the zero-randomness theorem at the concrete valid parameter
set `pGood` (whose `randomness` is 0), particle 1. -/
theorem randomness_zero_ideal_spiral_witness :
    validParams pGood ∧ pGood.randomness = 0 ∧
      particlePosition mathEnv0 pGood rand0 1 =
        (mathEnv0.cos (branchAngle mathEnv0 pGood 1 + spinAngle pGood rand0 1) *
            particleRadius pGood rand0 1,
         0,
         mathEnv0.sin (branchAngle mathEnv0 pGood 1 + spinAngle pGood rand0 1) *
            particleRadius pGood rand0 1) :=
  ⟨by decide, rfl,
    randomness_zero_ideal_spiral mathEnv0 pGood rand0 1 (by decide) rfl⟩

/-- C6: the stored colour equals `insideColor + t * (outsideColor - insideColor)`
componentwise with `t = radius_i / params.radius`; it depends only on
`radius_i` (not on branch or scatter draws); and at `radius_i = 0` it equals
`insideColor` exactly. -/
theorem particleColor_linear_mix (p : GalaxyParameters) (rand : ℕ → ℚ) (i : ℕ) :
    ((particleColor p rand i).r =
        p.insideColor.r +
          particleRadius p rand i / p.radius * (p.outsideColor.r - p.insideColor.r) ∧
      (particleColor p rand i).g =
        p.insideColor.g +
          particleRadius p rand i / p.radius * (p.outsideColor.g - p.insideColor.g) ∧
      (particleColor p rand i).b =
        p.insideColor.b +
          particleRadius p rand i / p.radius * (p.outsideColor.b - p.insideColor.b)) ∧
    (∀ (rand' : ℕ → ℚ) (j : ℕ),
      particleRadius p rand' j = particleRadius p rand i →
        particleColor p rand' j = particleColor p rand i) ∧
    (particleRadius p rand i = 0 → particleColor p rand i = p.insideColor) := by
  refine ⟨⟨?_, ?_, ?_⟩, ?_, ?_⟩
  · simp only [particleColor, Color.lerp]
    ring
  · simp only [particleColor, Color.lerp]
    ring
  · simp only [particleColor, Color.lerp]
    ring
  · intro rand' j h
    unfold particleColor
    rw [h]
  · intro h
    simp [particleColor, h, Color.lerp]

/-- Witness for the colour-mix theorem: with a stream that draws 0, particle 0
has `radius_i = 0` and its colour is exactly `insideColor`. -/
theorem particleColor_linear_mix_witness :
    particleColor pGood rand0 0 = pGood.insideColor :=
  (particleColor_linear_mix pGood rand0 0).2.2 (by simp [particleRadius, rand0])

/-- C7: for a valid parameter set and a radius draw in `[0, 1)`, every stored
colour channel lies in
`[min(insideColor_c, outsideColor_c), max(insideColor_c, outsideColor_c)]`,
because the mix factor `radius_i / params.radius` lies in `[0, 1]`. -/
theorem particleColor_channel_bounds (p : GalaxyParameters) (rand : ℕ → ℚ)
    (i : ℕ) (hv : validParams p) (hu0 : 0 ≤ rand (7 * i)) (hu1 : rand (7 * i) < 1) :
    (min p.insideColor.r p.outsideColor.r ≤ (particleColor p rand i).r ∧
      (particleColor p rand i).r ≤ max p.insideColor.r p.outsideColor.r) ∧
    (min p.insideColor.g p.outsideColor.g ≤ (particleColor p rand i).g ∧
      (particleColor p rand i).g ≤ max p.insideColor.g p.outsideColor.g) ∧
    (min p.insideColor.b p.outsideColor.b ≤ (particleColor p rand i).b ∧
      (particleColor p rand i).b ≤ max p.insideColor.b p.outsideColor.b) := by
  have hrpos : 0 < p.radius := hv.2.2.2.1
  have ht : particleRadius p rand i / p.radius = rand (7 * i) := by
    unfold particleRadius
    rw [mul_div_assoc, div_self (ne_of_gt hrpos), mul_one]
  simp only [particleColor, Color.lerp, ht]
  exact ⟨lerp_between _ _ _ hu0 (le_of_lt hu1),
    lerp_between _ _ _ hu0 (le_of_lt hu1),
    lerp_between _ _ _ hu0 (le_of_lt hu1)⟩

/-- Witness for the channel-bound theorem at the concrete valid parameter set
`pGood` with the all-zero stream. -/
theorem particleColor_channel_bounds_witness :
    validParams pGood ∧ 0 ≤ rand0 (7 * 0) ∧ rand0 (7 * 0) < 1 ∧
      ((min pGood.insideColor.r pGood.outsideColor.r ≤ (particleColor pGood rand0 0).r ∧
        (particleColor pGood rand0 0).r ≤ max pGood.insideColor.r pGood.outsideColor.r) ∧
       (min pGood.insideColor.g pGood.outsideColor.g ≤ (particleColor pGood rand0 0).g ∧
        (particleColor pGood rand0 0).g ≤ max pGood.insideColor.g pGood.outsideColor.g) ∧
       (min pGood.insideColor.b pGood.outsideColor.b ≤ (particleColor pGood rand0 0).b ∧
        (particleColor pGood rand0 0).b ≤ max pGood.insideColor.b pGood.outsideColor.b)) :=
  ⟨by decide, by decide, by decide,
    particleColor_channel_bounds pGood rand0 0 (by decide) (by decide) (by decide)⟩

/-- C2 is refuted: `pBad` is out of range (`randomness = -1`), yet the
generator does not reject before allocating — it produces fully allocated,
non-empty buffers of length `3 * count`. There is no validation code in
`generateGalaxy` at all. -/
theorem no_validation_counterexample :
    ¬ validParams pBad ∧
      (generateGalaxyBuffers mathEnv0 pBad rand0).1.length = 3 * pBad.count ∧
      (generateGalaxyBuffers mathEnv0 pBad rand0).2.length = 3 * pBad.count ∧
      3 * pBad.count ≠ 0 :=
  ⟨by decide, positionsUpTo_length mathEnv0 pBad rand0 pBad.count,
    colorsUpTo_length pBad rand0 pBad.count, by decide⟩

/-- C2 amended: the generator performs no range validation. Also for every
out-of-range parameter set it allocates and fills both output buffers to full
length `3 * count` from the raw parameter values — it neither rejects nor
clamps. -/
theorem generate_without_validation (M : MathEnv) (p : GalaxyParameters)
    (rand : ℕ → ℚ) (_h : ¬ validParams p) :
    (generateGalaxyBuffers M p rand).1.length = 3 * p.count ∧
      (generateGalaxyBuffers M p rand).2.length = 3 * p.count :=
  ⟨positionsUpTo_length M p rand p.count, colorsUpTo_length p rand p.count⟩

/-- Witness for the no-validation theorem at the concrete invalid parameter
set `pBad`. -/
theorem generate_without_validation_witness :
    ¬ validParams pBad ∧
      (generateGalaxyBuffers mathEnv0 pBad rand0).1.length = 3 * pBad.count ∧
      (generateGalaxyBuffers mathEnv0 pBad rand0).2.length = 3 * pBad.count :=
  ⟨by decide, generate_without_validation mathEnv0 pBad rand0 (by decide)⟩

/-- A concrete drawable standing for a previously generated galaxy. -/
def oldDrawable : Drawable :=
  { positions := [1, 2, 3], colors := [1, 0, 0] }

/-- A concrete lifecycle state with one active field: `oldDrawable` attached
to the scene and stored in `points`. -/
def activeState : ControllerState :=
  { scene := [oldDrawable], points := some oldDrawable }

/-- C1 is refuted: from a state with an active field, a `regenerate()` whose
buffer allocation fails leaves the scene empty — the previously active field
does not remain attached, because the source disposes and removes the old
drawable *before* generating the new buffer pair. -/
theorem generate_before_dispose_counterexample :
    activeState.points = some oldDrawable ∧ activeState.scene = [oldDrawable] ∧
      (regenerate mathEnv0 pGood rand0 false activeState).scene = [] :=
  ⟨rfl, rfl, by decide⟩

/-- C1 amended: on every `regenerate()` made while a field is active the old
drawable and buffers are detached and disposed *first*, and only afterwards is
the new buffer pair generated and attached; consequently, if generation fails,
the previously active field has already been removed and the scene is left
with no attached field, while on success the scene holds exactly the new
drawable. -/
theorem cleanup_before_generate (M : MathEnv) (p : GalaxyParameters)
    (rand : ℕ → ℚ) (s : ControllerState) (old : Drawable)
    (h : s.points = some old ∧ s.scene = [old]) :
    (regenerate M p rand false s).scene = [] ∧
      (regenerate M p rand true s).scene = [newDrawable M p rand] := by
  obtain ⟨hp, hs⟩ := h
  constructor
  · simp [regenerate, cleanupPrevious, hp, hs, List.erase_cons_head]
  · simp [regenerate, cleanupPrevious, hp, hs, List.erase_cons_head]

/-- Witness for the cleanup-before-generate theorem at the concrete active
state `activeState`. -/
theorem cleanup_before_generate_witness :
    (regenerate mathEnv0 pGood rand0 false activeState).scene = [] ∧
      (regenerate mathEnv0 pGood rand0 true activeState).scene =
        [newDrawable mathEnv0 pGood rand0] :=
  cleanup_before_generate mathEnv0 pGood rand0 activeState oldDrawable ⟨rfl, rfl⟩

theorem regenerate_idle (M : MathEnv) (p : GalaxyParameters) (rand : ℕ → ℚ)
    (s : ControllerState) (hp : s.points = none) (hs : s.scene = []) :
    (regenerate M p rand true s).scene = [newDrawable M p rand] ∧
      (regenerate M p rand true s).points = some (newDrawable M p rand) := by
  constructor <;> simp [regenerate, cleanupPrevious, hp, hs]

theorem regenerate_active (M : MathEnv) (p : GalaxyParameters) (rand : ℕ → ℚ)
    (s : ControllerState) (old : Drawable) (hp : s.points = some old)
    (hs : s.scene = [old]) :
    (regenerate M p rand true s).scene = [newDrawable M p rand] ∧
      (regenerate M p rand true s).points = some (newDrawable M p rand) := by
  constructor <;> simp [regenerate, cleanupPrevious, hp, hs, List.erase_cons_head]

/-- C8: the lifecycle invariant — at most one attached drawable — holds at the
initial state and is preserved by every (successful) `regenerate()`, which
replaces rather than adds; and after two sequential `regenerate()` calls from
the initial state the single attached drawable holds buffers sized to the
second call's `count`. -/
theorem single_active_drawable :
    goodState initState ∧
      (∀ (M : MathEnv) (p : GalaxyParameters) (rand : ℕ → ℚ) (s : ControllerState),
        goodState s →
          goodState (regenerate M p rand true s) ∧
            (regenerate M p rand true s).scene.length ≤ 1) ∧
      (∀ (M : MathEnv) (p1 p2 : GalaxyParameters) (r1 r2 : ℕ → ℚ),
        (regenerate M p2 r2 true (regenerate M p1 r1 true initState)).scene =
            [newDrawable M p2 r2] ∧
          (newDrawable M p2 r2).positions.length = 3 * p2.count ∧
          (newDrawable M p2 r2).colors.length = 3 * p2.count) := by
  refine ⟨Or.inl ⟨rfl, rfl⟩, ?_, ?_⟩
  · intro M p rand s hs
    rcases hs with ⟨hp, hsc⟩ | ⟨d, hp, hsc⟩
    · obtain ⟨h1, h2⟩ := regenerate_idle M p rand s hp hsc
      exact ⟨Or.inr ⟨newDrawable M p rand, h2, h1⟩, by simp [h1]⟩
    · obtain ⟨h1, h2⟩ := regenerate_active M p rand s d hp hsc
      exact ⟨Or.inr ⟨newDrawable M p rand, h2, h1⟩, by simp [h1]⟩
  · intro M p1 p2 r1 r2
    obtain ⟨h1, h2⟩ := regenerate_idle M p1 r1 initState rfl rfl
    obtain ⟨g1, g2⟩ :=
      regenerate_active M p2 r2 (regenerate M p1 r1 true initState)
        (newDrawable M p1 r1) h2 h1
    exact ⟨g1, positionsUpTo_length M p2 r2 p2.count, colorsUpTo_length p2 r2 p2.count⟩

/-- Witness for the single-drawable theorem: the invariant step applied at the
initial state. -/
theorem single_active_drawable_witness :
    goodState (regenerate mathEnv0 pGood rand0 true initState) ∧
      (regenerate mathEnv0 pGood rand0 true initState).scene.length ≤ 1 :=
  single_active_drawable.2.1 mathEnv0 pGood rand0 initState (Or.inl ⟨rfl, rfl⟩)
